import Mathlib

/-
Verification of the mouse-component code emitter
(psychopy/experiment/components/mouse/__init__.py).

The emitter is a family of Python methods that, given a parameter set and a
routine/loop context, append target-runtime source text to a shared indenting
buffer.  We embed the buffer protocol as a small operation language
(`BuffOp`): `write` models `writeIndented` (one entry at the current
indentation level, text kept verbatim), `writeLines` models
`writeIndentedLines` (the text is split on newlines, one entry per line), and
`indent` models `setIndentLevel(n, relative=True)`.  The semantics
`opsLines` / `opsEnd` gives the emitted (level, text) entries and the final
indentation cursor.  Each emitter method is translated into a function that
returns the list of buffer operations it performs, mirroring the Python
control flow statement by statement.
-/

namespace MouseComponent

/-- Characters matched by the `[\w']+` token pattern of `re.findall` in
`_clickableParamsList`: word characters (letters, digits, underscore) and the
apostrophe. -/
def isWordChar (c : Char) : Bool := c.isAlphanum || c = '_' || c = '\''

/-- Accumulating scanner for `re.findall(r"[\w']+", s)`: collects maximal runs
of word characters. -/
def findallWordAux : List Char → List Char → List (List Char)
  | [], acc => if acc.isEmpty then [] else [acc.reverse]
  | c :: cs, acc =>
    if isWordChar c then findallWordAux cs (c :: acc)
    else if acc.isEmpty then findallWordAux cs []
    else acc.reverse :: findallWordAux cs []

/-- The token list `re.findall(r"[\w']+", s)` used by `_clickableParamsList`. -/
def findallWordTokens (s : String) : List String :=
  (findallWordAux s.data []).map (fun l => String.mk l)

/-- The `_clickableParamsList` property: tokens of `saveParamsClickable`, or
`['name']` when the token list is empty (`paramsList or ['name']`). -/
def clickableParamsList (s : String) : List String :=
  let l := findallWordTokens s
  if l.isEmpty then ["name"] else l

/-- Python `str.splitlines` restricted to the newline separator, as used by
the buffer's `writeIndentedLines`. -/
def splitLinesAux : List Char → List Char → List (List Char)
  | [], acc => if acc.isEmpty then [] else [acc.reverse]
  | c :: cs, acc =>
    if c = '\n' then acc.reverse :: splitLinesAux cs []
    else splitLinesAux cs (c :: acc)

/-- Line splitting used by `writeIndentedLines`. -/
def splitLines (s : String) : List String :=
  (splitLinesAux s.data []).map (fun l => String.mk l)

/-- One operation on the shared indenting buffer. -/
inductive BuffOp where
  | write (s : String)
  | writeLines (s : String)
  | indent (n : Int)
deriving DecidableEq, Repr

/-- Semantics of a buffer-operation sequence: the emitted entries, each an
(indent level, text) pair, starting from indentation level `i`. -/
def opsLines : Int → List BuffOp → List (Int × String)
  | _, [] => []
  | i, BuffOp.write s :: rest => (i, s) :: opsLines i rest
  | i, BuffOp.writeLines s :: rest =>
      (splitLines s).map (fun l => (i, l)) ++ opsLines i rest
  | i, BuffOp.indent n :: rest => opsLines (i + n) rest

/-- Final indentation cursor after a buffer-operation sequence started at
level `i`. -/
def opsEnd : Int → List BuffOp → Int
  | i, [] => i
  | i, BuffOp.write _ :: rest => opsEnd i rest
  | i, BuffOp.writeLines _ :: rest => opsEnd i rest
  | i, BuffOp.indent n :: rest => opsEnd (i + n) rest

/-- Whether `sub` occurs as a contiguous sublist of `l`. -/
def charsInfix (sub : List Char) : List Char → Bool
  | [] => sub.isEmpty
  | c :: cs => sub.isPrefixOf (c :: cs) || charsInfix sub cs

/-- Whether `sub` occurs as a substring of some emitted entry. -/
def occursOut (sub : String) (out : List (Int × String)) : Bool :=
  out.any (fun e => charsInfix sub.data e.2.data)

/-- The mouse component's parameters, as read by the emitter methods
(`self.params[...].val`).  Enum fields hold one of their allowed string
values (validated upstream): `saveMouseState` one of
final / on click / every frame / never, `forceEndRoutineOnPress` one of
never / any click / valid click, `timeRelativeTo` one of
experiment / routine.  `newClicksOnly` is the boolean value of the external
Param object (modelled from the spec: the Param's truthiness stands for its
boolean value).  `stopVal` is the stop setting, with the empty string or
"None" meaning no stop condition. -/
structure ParameterSet where
  name : String
  saveMouseState : String
  forceEndRoutineOnPress : String
  timeRelativeTo : String
  newClicksOnly : Bool
  clickable : String
  saveParamsClickable : String
  stopVal : String
deriving DecidableEq, Repr

/-- The read-only routine/loop context: the current routine's clock name, the
nearest enclosing loop's name and type, and the experiment handler's name. -/
structure RoutineCtx where
  routineClockName : String
  loopName : String
  loopType : String
  expHandlerName : String
deriving DecidableEq, Repr

/-- Mutable state the emitter stores on the component object across phase
calls: the `self.clockStr` attribute assigned by `writeFrameCode` /
`writeFrameCodeJS` and read by the routine-end emitters. -/
structure CompState where
  clockStr : String
deriving DecidableEq, Repr

/-- Clock resolution in `writeFrameCode`: experiment time uses `globalClock`,
routine time uses the routine's clock; any other value leaves `self.clockStr`
unchanged. -/
def resolveClock (ps : ParameterSet) (ctx : RoutineCtx) (st : CompState) : String :=
  if ps.timeRelativeTo = "experiment" then "globalClock"
  else if ps.timeRelativeTo = "routine" then ctx.routineClockName
  else st.clockStr

/-- Clock resolution in `writeFrameCodeJS`: the routine clock name is the
fixed identifier `routineTimer`. -/
def resolveClockJS (ps : ParameterSet) (st : CompState) : String :=
  if ps.timeRelativeTo = "experiment" then "globalClock"
  else if ps.timeRelativeTo = "routine" then "routineTimer"
  else st.clockStr

/-- Modelled from the spec: the inherited `writeStartTestCode` (base class,
not part of this source file) emits the activation-window guard and indents
by one level for the guarded body; the callers dedent by one afterwards
(see the `# to get out of the if statement` comments in the source). -/
def writeStartTestCodeOps (ps : ParameterSet) : List BuffOp :=
  [BuffOp.write ("if t >= startVal and " ++ ps.name ++ ".status == NOT_STARTED:\n"),
   BuffOp.indent 1]

/-- Modelled from the spec: the inherited `writeStopTestCode` emits the
deactivation-window guard and indents by one level for the guarded body. -/
def writeStopTestCodeOps (ps : ParameterSet) : List BuffOp :=
  [BuffOp.write ("if " ++ ps.name ++ ".status == STARTED and t >= stopVal:\n"),
   BuffOp.indent 1]

/-- Modelled from the spec: the inherited `writeStartTestCodeJS` emits the
activation-window guard for the browser runtime and indents by one level. -/
def writeStartTestCodeJSOps (ps : ParameterSet) : List BuffOp :=
  [BuffOp.write ("if (t >= startVal && " ++ ps.name ++ ".status === PsychoJS.Status.NOT_STARTED) \x7b\n"),
   BuffOp.indent 1]

/-- Modelled from the spec: the inherited `writeStopTestCodeJS` emits the
deactivation-window guard for the browser runtime and indents by one level. -/
def writeStopTestCodeJSOps (ps : ParameterSet) : List BuffOp :=
  [BuffOp.write ("if (" ++ ps.name ++ ".status === PsychoJS.Status.STARTED && t >= stopVal) \x7b\n"),
   BuffOp.indent 1]

/-- The first text written by `_writeClickableObjectsCode`: the hit-test loop
over the clickable objects, setting `gotValidClick`. -/
def clickableHitTestPy (ps : ParameterSet) : String :=
  "# check if the mouse was inside our 'clickable' objects\n" ++
  "for obj in [" ++ ps.clickable ++ "]:\n" ++
  "    if obj.contains(" ++ ps.name ++ "):\n" ++
  "        gotValidClick = True\n"

/-- The second text written by `_writeClickableObjectsCode`: one append per
clicked attribute. -/
def clickedAppendsPy (ps : ParameterSet) : String :=
  String.join ((clickableParamsList ps.saveParamsClickable).map
    (fun p => ps.name ++ ".clicked_" ++ p ++ ".append(obj." ++ p ++ ")\n"))

/-- `_writeClickableObjectsCode`: hit-test block, then the attribute appends
two levels deeper. -/
def writeClickableObjectsCode (ps : ParameterSet) : List BuffOp :=
  [BuffOp.writeLines (clickableHitTestPy ps),
   BuffOp.indent 2,
   BuffOp.writeLines (clickedAppendsPy ps),
   BuffOp.indent (-2)]

/-- The text written by `_writeClickableObjectsCodeJS`: the browser hit-test
loop; it pushes only `obj.name` onto `clicked_name` and sets no flag. -/
def clickableHitTestJS (ps : ParameterSet) : String :=
  "// check if the mouse was inside our 'clickable' objects\n" ++
  "for (const obj of [" ++ ps.clickable ++ "])\n" ++
  "  if (obj.contains(" ++ ps.name ++ ")) \x7b\n" ++
  "    console.log('INSIDE ' + obj.name);\n" ++
  "    " ++ ps.name ++ ".clicked_name.push(obj.name);\n" ++
  "  \x7d\n" ++
  "\x7d\n"

/-- `_writeClickableObjectsCodeJS`: the hit-test text, then a dedent by one
and a closing brace. -/
def writeClickableObjectsCodeJS (ps : ParameterSet) : List BuffOp :=
  [BuffOp.writeLines (clickableHitTestJS ps),
   BuffOp.indent (-1),
   BuffOp.writeLines ("\x7d\n")]

/-- `writeInitCode`: desktop declaration-phase emission. -/
def writeInitCode (ps : ParameterSet) : List BuffOp :=
  [BuffOp.writeLines (ps.name ++ " = event.Mouse(win=win)\nx, y = [None, None]\n")]

/-- `writeInitCodeJS`: browser declaration-phase emission. -/
def writeInitCodeJS (ps : ParameterSet) : List BuffOp :=
  [BuffOp.writeLines (ps.name ++ " = new Mouse(\x7b\n  win: my.window,\n\x7d);\n")]

/-- `writeRoutineStartCode`: desktop routine-start emission (storage lists,
clicked-attribute lists, `gotValidClick` flag), one `writeIndentedLines`. -/
def writeRoutineStartCode (ps : ParameterSet) : List BuffOp :=
  let code := "# setup some python lists for storing info about the " ++ ps.name ++ "\n"
  let code := if ps.saveMouseState = "every frame" ∨ ps.saveMouseState = "on click" then
      code ++ ps.name ++ ".x = []\n" ++ ps.name ++ ".y = []\n" ++
      ps.name ++ ".leftButton = []\n" ++ ps.name ++ ".midButton = []\n" ++
      ps.name ++ ".rightButton = []\n" ++ ps.name ++ ".time = []\n"
    else code
  let code := if ps.clickable = "" then code
    else code ++ String.join ((clickableParamsList ps.saveParamsClickable).map
      (fun p => ps.name ++ ".clicked_" ++ p ++ " = []\n"))
  let code := code ++ "gotValidClick = False  # until a click is received\n"
  [BuffOp.writeLines code]

/-- `writeRoutineStartCodeJS`: browser routine-start emission. -/
def writeRoutineStartCodeJS (ps : ParameterSet) : List BuffOp :=
  let code := "// setup some python lists for storing info about the " ++ ps.name ++ "\n"
  let code := if ps.saveMouseState = "every frame" ∨ ps.saveMouseState = "on click" then
      code ++ "// current position of the mouse:\n" ++ ps.name ++ ".x = [];\n" ++
      ps.name ++ ".y = [];\n" ++ ps.name ++ ".leftButton = [];\n" ++
      ps.name ++ ".midButton = [];\n" ++ ps.name ++ ".rightButton = [];\n" ++
      ps.name ++ ".time = [];\n"
    else code
  let code := if ps.clickable = "" then code
    else code ++ String.join ((clickableParamsList ps.saveParamsClickable).map
      (fun p => "my." ++ ps.name ++ ".clicked_" ++ p ++ " = [];\n"))
  let code := code ++ "my.gotValidClick = false; // until a click is received\n"
  [BuffOp.writeLines code]

/-- The status assignment written at the top of the desktop start-test body. -/
def statusStartedPy (ps : ParameterSet) : String :=
  ps.name ++ ".status = STARTED\n"

/-- Desktop baseline when `newClicksOnly` is set: capture the current pressed
buttons. -/
def baselinePressedPy (ps : ParameterSet) : String :=
  "prevButtonState = " ++ ps.name ++
  ".getPressed()  # if button is down already this ISN'T a new click\n"

/-- Desktop baseline when `newClicksOnly` is not set: all released. -/
def baselineZeroPy : String :=
  "prevButtonState = [0, 0, 0]  # if now button is down we will treat as 'new' click\n"

/-- The per-sample append block of the desktop per-frame phase. -/
def sampleBlockPy (ps : ParameterSet) (clk : String) : String :=
  "x, y = " ++ ps.name ++ ".getPos()\n" ++
  ps.name ++ ".x.append(x)\n" ++
  ps.name ++ ".y.append(y)\n" ++
  ps.name ++ ".leftButton.append(buttons[0])\n" ++
  ps.name ++ ".midButton.append(buttons[1])\n" ++
  ps.name ++ ".rightButton.append(buttons[2])\n" ++
  ps.name ++ ".time.append(" ++ clk ++ ".getTime())\n"

/-- `writeFrameCode`: desktop per-frame emission; also stores the resolved
clock identifier as `self.clockStr` (returned as the new component state),
even on the early exit. -/
def writeFrameCode (ps : ParameterSet) (ctx : RoutineCtx) (st : CompState) :
    List BuffOp × CompState :=
  let forceEnd := ps.forceEndRoutineOnPress
  let clk := resolveClock ps ctx st
  let st' : CompState := ⟨clk⟩
  if (ps.saveMouseState ≠ "every frame" ∧ ps.saveMouseState ≠ "on click") ∧
      forceEnd = "never" then ([], st')
  else
    let ops := [BuffOp.write ("# *" ++ ps.name ++ "* updates\n")]
      ++ writeStartTestCodeOps ps
      ++ [BuffOp.writeLines (statusStartedPy ps ++
            (if ps.newClicksOnly then baselinePressedPy ps else baselineZeroPy)),
          BuffOp.indent (-1)]
      ++ (if ps.stopVal = "" ∨ ps.stopVal = "None" then []
          else writeStopTestCodeOps ps
            ++ [BuffOp.write (ps.name ++ ".status = STOPPED\n"), BuffOp.indent (-1)])
      ++ [BuffOp.write ("if " ++ ps.name ++
            ".status == STARTED:  # only update if started and not stopped!\n"),
          BuffOp.indent 1]
    let ops2 :=
      if ps.saveMouseState = "on click" ∨ forceEnd = "any click" ∨ forceEnd = "valid click" then
        [BuffOp.writeLines ("buttons = " ++ ps.name ++
            ".getPressed()\nif buttons != prevButtonState:  # button state changed?"),
         BuffOp.indent 1,
         BuffOp.write ("prevButtonState = buttons\n"),
         BuffOp.writeLines ("if sum(buttons) > 0:  # state changed to a new click\n"),
         BuffOp.indent 1]
      else if ps.saveMouseState = "every frame" then
        [BuffOp.write ("buttons = " ++ ps.name ++ ".getPressed()\n")]
      else []
    let dedentAtEnd : Int :=
      if ps.saveMouseState = "on click" ∨ forceEnd = "any click" ∨ forceEnd = "valid click" then 3
      else 1
    let ops3 := if ps.saveMouseState = "on click" ∨ ps.saveMouseState = "every frame" then
        [BuffOp.writeLines (sampleBlockPy ps clk)]
      else []
    let ops4 := if ps.clickable = "" then [] else writeClickableObjectsCode ps
    let ops5 :=
      if forceEnd = "any click" then
        [BuffOp.writeLines ("# abort routine on response\ncontinueRoutine = False\n")]
      else if forceEnd = "valid click" then
        [BuffOp.writeLines ("if gotValidClick:  # abort routine on response\n    continueRoutine = False\n")]
      else []
    (ops ++ ops2 ++ ops3 ++ ops4 ++ ops5 ++ [BuffOp.indent (-dedentAtEnd)], st')

/-- The status assignment written at the top of the browser start-test body. -/
def statusStartedJS (ps : ParameterSet) : String :=
  ps.name ++ ".status = PsychoJS.Status.STARTED;\n"

/-- Browser baseline when `newClicksOnly` is set. -/
def baselinePressedJS (ps : ParameterSet) : String :=
  "my.prevButtonState = " ++ ps.name ++
  ".getPressed();  // if button is down already this ISN'T a new click\n\x7d"

/-- Browser baseline when `newClicksOnly` is not set. -/
def baselineZeroJS : String :=
  "let prevButtonState = [0, 0, 0];  // if now button is down we will treat as 'new' click\n\x7d"

/-- The per-sample push block of the browser per-frame phase. -/
def sampleBlockJS (ps : ParameterSet) (clk : String) : String :=
  "let xys = " ++ ps.name ++ ".getPos();\n" ++
  ps.name ++ ".x.push(xys[0]);\n" ++
  ps.name ++ ".y.push(xys[1]);\n" ++
  ps.name ++ ".leftButton.push(my.buttons[0]);\n" ++
  ps.name ++ ".midButton.push(my.buttons[1]);\n" ++
  ps.name ++ ".rightButton.push(my.buttons[2]);\n" ++
  ps.name ++ ".time.push(my." ++ clk ++ ".getTime());\n"

/-- `writeFrameCodeJS`: browser per-frame emission; also stores the resolved
clock identifier as `self.clockStr` (returned as the new component state),
even on the early exit. -/
def writeFrameCodeJS (ps : ParameterSet) (ctx : RoutineCtx) (st : CompState) :
    List BuffOp × CompState :=
  let _ := ctx
  let forceEnd := ps.forceEndRoutineOnPress
  let clk := resolveClockJS ps st
  let st' : CompState := ⟨clk⟩
  if (ps.saveMouseState ≠ "every frame" ∧ ps.saveMouseState ≠ "on click") ∧
      forceEnd = "never" then ([], st')
  else
    let ops := [BuffOp.write ("// *" ++ ps.name ++ "* updates\n")]
      ++ writeStartTestCodeJSOps ps
      ++ [BuffOp.writeLines (statusStartedJS ps ++
            (if ps.newClicksOnly then baselinePressedJS ps else baselineZeroJS)),
          BuffOp.indent (-1)]
      ++ (if ps.stopVal = "" ∨ ps.stopVal = "None" then []
          else writeStopTestCodeJSOps ps
            ++ [BuffOp.write (ps.name ++ ".status = PsychoJS.Status.STOPPED;\n  \x7d\n"),
                BuffOp.indent (-1)])
      ++ [BuffOp.write ("if (" ++ ps.name ++
            ".status === PsychoJS.Status.STARTED) \x7b  // only update if started and not stopped!\n"),
          BuffOp.indent 1]
    let ops2 :=
      if ps.saveMouseState = "on click" ∨ forceEnd = "any click" ∨ forceEnd = "valid click" then
        [BuffOp.writeLines ("my.buttons = " ++ ps.name ++
            ".getPressed();\nif (my.buttons != my.prevButtonState) \x7b // button state changed?"),
         BuffOp.indent 1,
         BuffOp.write ("if (!my.buttons.every( (e,i,) => (e == my.prevButtonState[i]) )) \x7b // button state changed?\n"),
         BuffOp.indent 1,
         BuffOp.write ("my.prevButtonState = my.buttons;\n"),
         BuffOp.writeLines ("if (my.buttons.reduce( (e, acc) => (e+acc) ) > 0) \x7b // state changed to a new click\n"),
         BuffOp.indent 1]
      else if ps.saveMouseState = "every frame" then
        [BuffOp.write ("my.buttons = " ++ ps.name ++ ".getPressed();\n")]
      else []
    let dedentAtEnd : Int :=
      if ps.saveMouseState = "on click" ∨ forceEnd = "any click" ∨ forceEnd = "valid click" then 3
      else 1
    let ops3 := if ps.saveMouseState = "on click" ∨ ps.saveMouseState = "every frame" then
        [BuffOp.writeLines (sampleBlockJS ps clk)]
      else []
    let ops4 := if ps.clickable = "" then [] else writeClickableObjectsCodeJS ps
    let ops5 :=
      if forceEnd = "any click" then
        [BuffOp.writeLines ("// abort routine on response\nlet continueRoutine = false;\n")]
      else if forceEnd = "valid click" then
        [BuffOp.writeLines ("if (my.gotValidClick === true) \x7b // abort routine on response\n  let continueRoutine = false;\n\x7d\n")]
      else []
    (ops ++ ops2 ++ ops3 ++ ops4 ++ [BuffOp.write ("\x7d\n")] ++ ops5
      ++ [BuffOp.indent (-dedentAtEnd), BuffOp.writeLines ("\x7d")], st')

/-- The staircase comment of the desktop routine-end phase. -/
def stairCommentPy : String :=
  "# NB PsychoPy doesn't handle a 'correct answer' for mouse events so doesn't know how to handle mouse with StairHandler\n"

/-- The non-staircase loop comment of the desktop routine-end phase. -/
def storeCommentPy (ctx : RoutineCtx) : String :=
  "# store data for " ++ ctx.loopName ++ " (" ++ ctx.loopType ++ ")\n"

/-- One full-sequence data record of the desktop routine-end phase. -/
def fullRecordPy (ps : ParameterSet) (ctx : RoutineCtx) (prop : String) : String :=
  ctx.loopName ++ ".addData('" ++ ps.name ++ "." ++ prop ++ "', " ++
  ps.name ++ "." ++ prop ++ ")\n"

/-- One guarded first-element data record of the desktop routine-end phase. -/
def guardRecordPy (ps : ParameterSet) (ctx : RoutineCtx) (prop : String) : String :=
  "if len(" ++ ps.name ++ "." ++ prop ++ "): " ++ ctx.loopName ++ ".addData('" ++
  ps.name ++ "." ++ prop ++ "', " ++ ps.name ++ "." ++ prop ++ "[0])\n"

/-- The data-channel list `mouseDataProps` of the routine-end phase: the six
standard channels, plus one `clicked_<attribute>` channel per token when
`clickable` is non-empty. -/
def routineEndChannels (ps : ParameterSet) : List String :=
  ["x", "y", "leftButton", "midButton", "rightButton", "time"] ++
  (if ps.clickable = "" then []
   else (clickableParamsList ps.saveParamsClickable).map (fun p => "clicked_" ++ p))

/-- The single string written in the desktop `final` branch when the loop is
not a staircase and `clickable` is non-empty: the terminal sample, the five
positional/button records, and the clicked-attribute records.  The Python
builds the clicked blocks inside a `for` loop but applies one `str.format`
after the loop, so every block is instantiated with the LAST attribute
token. -/
def finalFullCodePy (ps : ParameterSet) (ctx : RoutineCtx) (st : CompState) : String :=
  let plist := clickableParamsList ps.saveParamsClickable
  let lastP := plist.getLastD "name"
  "x, y = " ++ ps.name ++ ".getPos()\n" ++
  "buttons = " ++ ps.name ++ ".getPressed()\n" ++
  ps.name ++ ".time = " ++ st.clockStr ++ ".getTime()\n" ++
  ctx.loopName ++ ".addData('" ++ ps.name ++ ".x', x)\n" ++
  ctx.loopName ++ ".addData('" ++ ps.name ++ ".y', y)\n" ++
  ctx.loopName ++ ".addData('" ++ ps.name ++ ".leftButton', buttons[0])\n" ++
  ctx.loopName ++ ".addData('" ++ ps.name ++ ".midButton', buttons[1])\n" ++
  ctx.loopName ++ ".addData('" ++ ps.name ++ ".rightButton', buttons[2])\n" ++
  String.join (plist.map (fun _ =>
    "if len(" ++ ps.name ++ ".clicked_" ++ lastP ++ "):\n    " ++
    ctx.loopName ++ ".addData('" ++ ps.name ++ ".clicked_" ++ lastP ++ "', " ++
    ps.name ++ ".clicked_" ++ lastP ++ "[0])\n"))

/-- `writeRoutineEndCode`: desktop routine-end emission.  The early return
compares the store mode against the literal `'nothing'`, which is not among
the allowed values of `saveMouseState`. -/
def writeRoutineEndCode (ps : ParameterSet) (ctx : RoutineCtx) (st : CompState) :
    List BuffOp :=
  let store := ps.saveMouseState
  if store = "nothing" then []
  else
    let forceEnd := ps.forceEndRoutineOnPress
    let commentOps := [BuffOp.writeLines
      (if ctx.loopType = "StairHandler" then stairCommentPy else storeCommentPy ctx)]
    let mainOps :=
      if store = "final" then
        (if ps.clickable = "" then []
         else [BuffOp.write ("if sum(buttons):\n"), BuffOp.indent 1]
           ++ writeClickableObjectsCode ps ++ [BuffOp.indent (-1)])
        ++ (if ctx.loopType = "StairHandler" then []
            else if ps.clickable = "" then []
            else [BuffOp.writeLines (finalFullCodePy ps ctx st)])
      else if store ≠ "never" then
        (routineEndChannels ps).map (fun prop =>
          if store = "every frame" ∨ forceEnd = "never" then
            BuffOp.write (fullRecordPy ps ctx prop)
          else
            BuffOp.write (guardRecordPy ps ctx prop))
      else []
    commentOps ++ mainOps ++
      (if ctx.loopName = ctx.expHandlerName then
        [BuffOp.write (ctx.expHandlerName ++ ".nextEntry()\n")]
      else [])

/-- The staircase comment of the browser routine-end phase. -/
def stairCommentJS : String :=
  "/*NB PsychoPy doesn't handle a 'correct answer' for mouse events so doesn't know how to handle mouse with StairHandler*/\n"

/-- The non-staircase loop comment of the browser routine-end phase. -/
def storeCommentJS (ctx : RoutineCtx) : String :=
  "// store data for " ++ ctx.loopName ++ " (" ++ ctx.loopType ++ ")\n"

/-- One full-sequence data record of the browser routine-end phase. -/
def fullRecordJS (ps : ParameterSet) (prop : String) : String :=
  "psychoJS.experiment.addData('" ++ ps.name ++ "." ++ prop ++ "', " ++
  ps.name ++ "." ++ prop ++ ");\n"

/-- One guarded first-element data record of the browser routine-end phase. -/
def guardRecordJS (ps : ParameterSet) (prop : String) : String :=
  "if (" ++ ps.name ++ "." ++ prop ++ ") \x7b  psychoJS.experiment.addData('" ++
  ps.name ++ "." ++ prop ++ "', " ++ ps.name ++ "." ++ prop ++ "[0])\x7d;\n"

/-- The single string written in the browser `final` branch when the loop is
not a staircase and `clickable` is non-empty; as on the desktop side, one
`str.format` after the loop instantiates every clicked block with the LAST
attribute token. -/
def finalFullCodeJS (ps : ParameterSet) (st : CompState) : String :=
  let plist := clickableParamsList ps.saveParamsClickable
  let lastP := plist.getLastD "name"
  "let xys = " ++ ps.name ++ ".getPos();\n" ++
  "my.buttons = " ++ ps.name ++ ".getPressed();\n" ++
  ps.name ++ ".time = " ++ st.clockStr ++ ".getTime();\n" ++
  "psychoJS.experiment.addData('" ++ ps.name ++ ".x', xys[0]);\n" ++
  "psychoJS.experiment.addData('" ++ ps.name ++ ".y', xys[1]);\n" ++
  "psychoJS.experiment.addData('" ++ ps.name ++ ".leftButton', buttons[0]);\n" ++
  "psychoJS.experiment.addData('" ++ ps.name ++ ".midButton', buttons[1]);\n" ++
  "psychoJS.experiment.addData('" ++ ps.name ++ ".rightButton', buttons[2]);\n" ++
  String.join (plist.map (fun _ =>
    "if " ++ ps.name ++ ".clicked_" ++ lastP ++ ")\n  psychoJS.experiment.addData('" ++
    ps.name ++ ".clicked_" ++ lastP ++ "', psychoJS.experiment.clicked_" ++
    lastP ++ "[0]);\n"))

/-- `writeRoutineEndCodeJS`: browser routine-end emission.  Note that the
`final` branch calls the DESKTOP `_writeClickableObjectsCode` helper, and
that there is no next-entry signal. -/
def writeRoutineEndCodeJS (ps : ParameterSet) (ctx : RoutineCtx) (st : CompState) :
    List BuffOp :=
  let store := ps.saveMouseState
  if store = "nothing" then []
  else
    let forceEnd := ps.forceEndRoutineOnPress
    let commentOps := [BuffOp.writeLines
      (if ctx.loopType = "StairHandler" then stairCommentJS else storeCommentJS ctx)]
    let mainOps :=
      if store = "final" then
        (if ps.clickable = "" then []
         else [BuffOp.write ("if (my.buttons.reduce((a, b) => a + b, 0) > 0) \x7b\n"),
               BuffOp.indent 1]
           ++ writeClickableObjectsCode ps ++ [BuffOp.indent (-1)])
        ++ (if ctx.loopType = "StairHandler" then []
            else if ps.clickable = "" then []
            else [BuffOp.writeLines (finalFullCodeJS ps st)])
      else if store ≠ "never" then
        ((routineEndChannels ps).map (fun prop =>
          if store = "every frame" ∨ forceEnd = "never" then
            BuffOp.write (fullRecordJS ps prop)
          else
            BuffOp.write (guardRecordJS ps prop)))
        ++ [BuffOp.writeLines ("\n")]
      else []
    commentOps ++ mainOps

/-- Emitted entries of the desktop per-frame phase, from indent level 0. -/
def frameLinesPy (ps : ParameterSet) (ctx : RoutineCtx) (st : CompState) :
    List (Int × String) :=
  opsLines 0 (writeFrameCode ps ctx st).1

/-- Emitted entries of the browser per-frame phase, from indent level 0. -/
def frameLinesJS (ps : ParameterSet) (ctx : RoutineCtx) (st : CompState) :
    List (Int × String) :=
  opsLines 0 (writeFrameCodeJS ps ctx st).1

/-- Emitted entries of the desktop routine-end phase, from indent level 0. -/
def endLinesPy (ps : ParameterSet) (ctx : RoutineCtx) (st : CompState) :
    List (Int × String) :=
  opsLines 0 (writeRoutineEndCode ps ctx st)

/-- Emitted entries of the browser routine-end phase, from indent level 0. -/
def endLinesJS (ps : ParameterSet) (ctx : RoutineCtx) (st : CompState) :
    List (Int × String) :=
  opsLines 0 (writeRoutineEndCodeJS ps ctx st)

/-- Written from the spec's words for claim C6 (routine-end phase, store mode
`every frame` or `on click`, non-staircase loop): after the loop comment, one
data record per channel — the six standard channels plus one per clicked
attribute when `clickable` is configured — recording the entire accumulated
sequence exactly when the store mode is `every frame` or routine-ending on
press is `never`, and otherwise the guarded first element; finally the
next-entry signal when the loop is the experiment handler. -/
def specSequenceRecordsPy (ps : ParameterSet) (ctx : RoutineCtx) : List (Int × String) :=
  (splitLines (storeCommentPy ctx)).map (fun l => ((0 : Int), l)) ++
  (routineEndChannels ps).map (fun prop => ((0 : Int),
    if ps.saveMouseState = "every frame" ∨ ps.forceEndRoutineOnPress = "never" then
      fullRecordPy ps ctx prop
    else guardRecordPy ps ctx prop)) ++
  (if ctx.loopName = ctx.expHandlerName then
    [((0 : Int), ctx.expHandlerName ++ ".nextEntry()\n")]
  else [])

/-- Written from the spec's words for claim C6, browser runtime: the same
channel-record policy with browser syntax, followed by the blank line the
browser emitter appends. -/
def specSequenceRecordsJS (ps : ParameterSet) (ctx : RoutineCtx) : List (Int × String) :=
  (splitLines (storeCommentJS ctx)).map (fun l => ((0 : Int), l)) ++
  (routineEndChannels ps).map (fun prop => ((0 : Int),
    if ps.saveMouseState = "every frame" ∨ ps.forceEndRoutineOnPress = "never" then
      fullRecordJS ps prop
    else guardRecordJS ps prop)) ++
  [((0 : Int), "")]

/-- Written from the spec's words for the amended claim C4: under a staircase
loop with store mode `final`, the desktop routine-end emission is exactly the
explanatory comment, plus — when `clickable` is non-empty — the
button-guarded clickable hit-test block, plus the next-entry signal when the
loop is the experiment handler; in particular it contains no `addData`
record. -/
def specStairFinalPy (ps : ParameterSet) (ctx : RoutineCtx) : List (Int × String) :=
  (splitLines stairCommentPy).map (fun l => ((0 : Int), l)) ++
  (if ps.clickable = "" then []
   else ((0 : Int), "if sum(buttons):\n") ::
     ((splitLines (clickableHitTestPy ps)).map (fun l => ((1 : Int), l)) ++
      (splitLines (clickedAppendsPy ps)).map (fun l => ((3 : Int), l)))) ++
  (if ctx.loopName = ctx.expHandlerName then
    [((0 : Int), ctx.expHandlerName ++ ".nextEntry()\n")]
  else [])

/-- Emitted entries distribute over concatenation of operation sequences. -/
theorem opsLines_append (a b : List BuffOp) (i : Int) :
    opsLines i (a ++ b) = opsLines i a ++ opsLines (opsEnd i a) b := by
  induction a generalizing i with
  | nil => simp [opsLines, opsEnd]
  | cons op rest ih =>
    cases op <;> simp [opsLines, opsEnd, ih]

/-- The final indentation cursor distributes over concatenation. -/
theorem opsEnd_append (a b : List BuffOp) (i : Int) :
    opsEnd i (a ++ b) = opsEnd (opsEnd i a) b := by
  induction a generalizing i with
  | nil => simp [opsEnd]
  | cons op rest ih =>
    cases op <;> simp [opsEnd, ih]

/-- A sequence of plain writes emits one entry per element at the current
level. -/
theorem opsLines_map_write {α : Type} (l : List α) (f : α → String) (i : Int) :
    opsLines i (l.map (fun p => BuffOp.write (f p))) = l.map (fun p => (i, f p)) := by
  induction l with
  | nil => simp [opsLines]
  | cons p rest ih => simp [opsLines, ih]

/-- A sequence of plain writes does not move the indentation cursor. -/
theorem opsEnd_map_write {α : Type} (l : List α) (f : α → String) (i : Int) :
    opsEnd i (l.map (fun p => BuffOp.write (f p))) = i := by
  induction l with
  | nil => simp [opsEnd]
  | cons p rest ih => simp [opsEnd, ih]

/-- C2: evaluation of the routine-end emitters at the failing input
`saveMouseState = 'never'`.  The spec says the routine-end emission is empty,
but both emitters write the loop-context comment: the early-return guard
compares the store mode against `'nothing'`, which is not an allowed value of
`saveMouseState`, so it can never fire. -/
theorem claim_C2_code_eval :
    endLinesPy ⟨"mouse", "never", "never", "routine", true, "", "name,", "1.0"⟩
        ⟨"t", "trials", "TrialHandler", "thisExp"⟩ ⟨"t"⟩ =
      [((0 : Int), "# store data for trials (TrialHandler)")] ∧
    endLinesJS ⟨"mouse", "never", "never", "routine", true, "", "name,", "1.0"⟩
        ⟨"t", "trials", "TrialHandler", "thisExp"⟩ ⟨"t"⟩ =
      [((0 : Int), "// store data for trials (TrialHandler)")] ∧
    endLinesPy ⟨"mouse", "never", "never", "routine", true, "", "name,", "1.0"⟩
        ⟨"t", "trials", "TrialHandler", "thisExp"⟩ ⟨"t"⟩ ≠ [] ∧
    endLinesJS ⟨"mouse", "never", "never", "routine", true, "", "name,", "1.0"⟩
        ⟨"t", "trials", "TrialHandler", "thisExp"⟩ ⟨"t"⟩ ≠ [] := by decide

/-- C3: when the store mode is neither `every frame` nor `on click` and
`forceEndRoutineOnPress = 'never'`, the per-frame phase performs no buffer
operations at all, for both runtimes. -/
theorem claim_C3_frame_silent (ps : ParameterSet) (ctx : RoutineCtx) (st : CompState)
    (h1 : ps.saveMouseState ≠ "every frame") (h2 : ps.saveMouseState ≠ "on click")
    (h3 : ps.forceEndRoutineOnPress = "never") :
    (writeFrameCode ps ctx st).1 = [] ∧ (writeFrameCodeJS ps ctx st).1 = [] := by
  constructor <;> simp [writeFrameCode, writeFrameCodeJS, h1, h2, h3]

/-- Witness for C3 at a concrete parameter set. -/
theorem claim_C3_frame_silent_witness :
    (writeFrameCode ⟨"mouse", "final", "never", "routine", true, "", "name,", "1.0"⟩
        ⟨"t", "trials", "TrialHandler", "thisExp"⟩ ⟨""⟩).1 = [] ∧
    (writeFrameCodeJS ⟨"mouse", "final", "never", "routine", true, "", "name,", "1.0"⟩
        ⟨"t", "trials", "TrialHandler", "thisExp"⟩ ⟨""⟩).1 = [] :=
  claim_C3_frame_silent _ _ _ (by decide) (by decide) (by decide)

/-- C8: for any text of the `saveParamsClickable` field the derived attribute
list is non-empty, and it is exactly `['name']` whenever token extraction
yields nothing; the derivation is a total function, so malformed text never
fails. -/
theorem claim_C8_params_fallback (s : String) :
    clickableParamsList s ≠ [] ∧
    ((findallWordTokens s).isEmpty = true → clickableParamsList s = ["name"]) := by
  constructor
  · cases hl : findallWordTokens s with
    | nil => simp [clickableParamsList, hl]
    | cons a t => simp [clickableParamsList, hl]
  · intro h
    simp [clickableParamsList, h]

/-- Witness for C8 at the empty string. -/
theorem claim_C8_params_fallback_witness :
    clickableParamsList "" ≠ [] ∧ clickableParamsList "" = ["name"] :=
  ⟨(claim_C8_params_fallback "").1, (claim_C8_params_fallback "").2 (by decide)⟩

/-- C1: evaluation of both per-frame emitters at a parameter set with
`clickable = 'target'` and `saveParamsClickable = 'name,text'`.  The desktop
hit-test sets `gotValidClick = True` and appends to `clicked_text`; the
browser hit-test does neither (it pushes only `obj.name` onto
`clicked_name`), so the two runtimes do not define the same clicked channels
and do not set the same flag, contrary to the spec's equivalence contract. -/
theorem claim_C1_code_eval :
    occursOut ("gotValidClick = True")
      (frameLinesPy ⟨"mouse", "on click", "valid click", "routine", true, "target", "name,text", "1.0"⟩
        ⟨"routineTimer", "trials", "TrialHandler", "thisExp"⟩ ⟨""⟩) = true ∧
    occursOut ("clicked_text")
      (frameLinesPy ⟨"mouse", "on click", "valid click", "routine", true, "target", "name,text", "1.0"⟩
        ⟨"routineTimer", "trials", "TrialHandler", "thisExp"⟩ ⟨""⟩) = true ∧
    occursOut ("gotValidClick = true")
      (frameLinesJS ⟨"mouse", "on click", "valid click", "routine", true, "target", "name,text", "1.0"⟩
        ⟨"routineTimer", "trials", "TrialHandler", "thisExp"⟩ ⟨""⟩) = false ∧
    occursOut ("clicked_text")
      (frameLinesJS ⟨"mouse", "on click", "valid click", "routine", true, "target", "name,text", "1.0"⟩
        ⟨"routineTimer", "trials", "TrialHandler", "thisExp"⟩ ⟨""⟩) = false ∧
    occursOut ("clicked_name")
      (frameLinesJS ⟨"mouse", "on click", "valid click", "routine", true, "target", "name,text", "1.0"⟩
        ⟨"routineTimer", "trials", "TrialHandler", "thisExp"⟩ ⟨""⟩) = true := by decide

/-- C5: evaluation of the desktop routine-end emitter at
`saveMouseState = 'final'`, `clickable = 'target'`,
`saveParamsClickable = 'name,text'` on a non-staircase loop.  The attribute
list is `['name', 'text']`, yet the emission contains guarded records only
for `clicked_text` (the last token, instantiated into every block by the one
`str.format` applied after the loop) and none for `clicked_name`. -/
theorem claim_C5_code_eval :
    clickableParamsList "name,text" = ["name", "text"] ∧
    occursOut (".addData('mouse.clicked_text'")
      (endLinesPy ⟨"mouse", "final", "never", "routine", true, "target", "name,text", "1.0"⟩
        ⟨"routineTimer", "trials", "TrialHandler", "thisExp"⟩ ⟨"routineTimer"⟩) = true ∧
    occursOut (".addData('mouse.clicked_name'")
      (endLinesPy ⟨"mouse", "final", "never", "routine", true, "target", "name,text", "1.0"⟩
        ⟨"routineTimer", "trials", "TrialHandler", "thisExp"⟩ ⟨"routineTimer"⟩) = false := by decide

/-- C7 counterexample: the per-frame emission mutates the component object
(it stores the resolved clock identifier in `self.clockStr`, even on the
early exit), and the routine-end emission reads that stored attribute, so its
output depends on the state left behind by the per-frame phase. -/
theorem claim_C7_counterexample :
    (writeFrameCode ⟨"mouse", "final", "never", "routine", true, "target", "name,", "1.0"⟩
        ⟨"routineTimer", "trials", "TrialHandler", "thisExp"⟩ ⟨""⟩).2 ≠ (⟨""⟩ : CompState) ∧
    endLinesPy ⟨"mouse", "final", "never", "routine", true, "target", "name,", "1.0"⟩
        ⟨"routineTimer", "trials", "TrialHandler", "thisExp"⟩ ⟨"globalClock"⟩ ≠
      endLinesPy ⟨"mouse", "final", "never", "routine", true, "target", "name,", "1.0"⟩
        ⟨"routineTimer", "trials", "TrialHandler", "thisExp"⟩ ⟨"routineTimer"⟩ := by decide

/-- C7 amended: apart from the `clockStr` attribute (which the per-frame
emitters overwrite and the routine-end emitters read), no component state
flows between phases: whenever `timeRelativeTo` holds one of its two allowed
values, the per-frame emission and the state it leaves behind are independent
of the component state it started from, for both runtimes. -/
theorem claim_C7_amended (ps : ParameterSet) (ctx : RoutineCtx) (st st' : CompState)
    (h : ps.timeRelativeTo = "experiment" ∨ ps.timeRelativeTo = "routine") :
    writeFrameCode ps ctx st = writeFrameCode ps ctx st' ∧
    writeFrameCodeJS ps ctx st = writeFrameCodeJS ps ctx st' := by
  rcases h with h | h <;>
    constructor <;>
      simp [writeFrameCode, writeFrameCodeJS, resolveClock, resolveClockJS, h]

/-- Witness for the amended C7 at a concrete parameter set and two distinct
prior states. -/
theorem claim_C7_amended_witness :
    writeFrameCode ⟨"mouse", "every frame", "never", "routine", true, "", "name,", "1.0"⟩
        ⟨"t", "trials", "TrialHandler", "thisExp"⟩ ⟨"a"⟩ =
      writeFrameCode ⟨"mouse", "every frame", "never", "routine", true, "", "name,", "1.0"⟩
        ⟨"t", "trials", "TrialHandler", "thisExp"⟩ ⟨"b"⟩ ∧
    writeFrameCodeJS ⟨"mouse", "every frame", "never", "routine", true, "", "name,", "1.0"⟩
        ⟨"t", "trials", "TrialHandler", "thisExp"⟩ ⟨"a"⟩ =
      writeFrameCodeJS ⟨"mouse", "every frame", "never", "routine", true, "", "name,", "1.0"⟩
        ⟨"t", "trials", "TrialHandler", "thisExp"⟩ ⟨"b"⟩ :=
  claim_C7_amended _ _ _ _ (Or.inr (by decide))

/-- C4 counterexample: with `saveMouseState = 'every frame'` under a
staircase loop the routine-end phase does emit `addData` record calls (one
full-sequence record per channel, addressed to the staircase loop), contrary
to the claim that only the explanatory comment is emitted. -/
theorem claim_C4_counterexample :
    occursOut (".addData(")
      (endLinesPy ⟨"mouse", "every frame", "never", "routine", true, "", "name,", "1.0"⟩
        ⟨"t", "staircase", "StairHandler", "thisExp"⟩ ⟨"t"⟩) = true := by decide

/-- C10 counterexample: with `saveMouseState = 'every frame'`,
`forceEndRoutineOnPress = 'never'` and a non-empty `clickable`, the browser
per-frame emission leaves the indentation cursor one level BELOW its
pre-call level (the browser clickable helper dedents by one with no matching
indent), contrary to the claim that every full phase emission restores the
cursor. -/
theorem claim_C10_counterexample :
    opsEnd 0 (writeFrameCodeJS ⟨"mouse", "every frame", "never", "routine", true, "target", "name,", "1.0"⟩
        ⟨"t", "trials", "TrialHandler", "thisExp"⟩ ⟨""⟩).1 ≠ 0 := by decide

/-- Emitted entries of a record loop whose full-vs-guarded choice does not
depend on the channel. -/
theorem opsLines_map_write_ite {α : Type} (l : List α) (c : Prop) [Decidable c]
    (f g : α → String) (i : Int) :
    opsLines i (l.map (fun p => if c then BuffOp.write (f p) else BuffOp.write (g p))) =
      l.map (fun p => (i, if c then f p else g p)) := by
  by_cases hc : c <;> simp [hc, opsLines_map_write]

/-- A record loop of plain writes does not move the indentation cursor. -/
theorem opsEnd_map_write_ite {α : Type} (l : List α) (c : Prop) [Decidable c]
    (f g : α → String) (i : Int) :
    opsEnd i (l.map (fun p => if c then BuffOp.write (f p) else BuffOp.write (g p))) = i := by
  by_cases hc : c <;> simp [hc, opsEnd_map_write]

/-- A conditional between two plain writes is a plain write of the
conditional text. -/
theorem write_ite (c : Prop) [Decidable c] (a b : String) :
    (if c then BuffOp.write a else BuffOp.write b) = BuffOp.write (if c then a else b) := by
  split <;> rfl

/-- Splitting a lone newline yields one empty line. -/
theorem splitLines_newline : splitLines "\n" = [""] := by decide

/-- The emitted entries of a conditional operation sequence. -/
theorem opsLines_ite (c : Prop) [Decidable c] (i : Int) (a b : List BuffOp) :
    opsLines i (if c then a else b) = if c then opsLines i a else opsLines i b := by
  split <;> rfl

/-- The final cursor of a conditional operation sequence. -/
theorem opsEnd_ite (c : Prop) [Decidable c] (i : Int) (a b : List BuffOp) :
    opsEnd i (if c then a else b) = if c then opsEnd i a else opsEnd i b := by
  split <;> rfl

/-- C4 amended: with store mode `final` under a staircase loop, the desktop
routine-end emission is exactly `specStairFinalPy` — the explanatory comment,
the hit-test block when `clickable` is non-empty, and the next-entry signal
when applicable — which contains no `addData` record statement. -/
theorem claim_C4_amended (ps : ParameterSet) (ctx : RoutineCtx) (st : CompState)
    (h : ps.saveMouseState = "final") (hs : ctx.loopType = "StairHandler") :
    endLinesPy ps ctx st = specStairFinalPy ps ctx := by
  by_cases hc : ps.clickable = "" <;>
    simp [endLinesPy, writeRoutineEndCode, h, hs, hc, specStairFinalPy,
      writeClickableObjectsCode, opsLines_append, opsLines, opsEnd_append, opsEnd,
      opsLines_ite, opsEnd_ite]

/-- Witness for the amended C4 at a concrete parameter set. -/
theorem claim_C4_amended_witness :
    endLinesPy ⟨"mouse", "final", "never", "routine", true, "target", "name,", "1.0"⟩
        ⟨"t", "staircase", "StairHandler", "thisExp"⟩ ⟨"t"⟩ =
      specStairFinalPy ⟨"mouse", "final", "never", "routine", true, "target", "name,", "1.0"⟩
        ⟨"t", "staircase", "StairHandler", "thisExp"⟩ :=
  claim_C4_amended _ _ _ (by decide) (by decide)

/-- C6: with store mode `every frame` or `on click` and a non-staircase loop,
both routine-end emissions are exactly the per-channel record sequence of the
spec: the full accumulated sequence is recorded if and only if the store mode
is `every frame` or `forceEndRoutineOnPress` is `never`, and otherwise the
first element guarded by a non-emptiness test, for each of the six standard
channels plus one channel per clicked attribute. -/
theorem claim_C6_sequence_records (ps : ParameterSet) (ctx : RoutineCtx) (st : CompState)
    (h : ps.saveMouseState = "every frame" ∨ ps.saveMouseState = "on click")
    (hs : ctx.loopType ≠ "StairHandler") :
    endLinesPy ps ctx st = specSequenceRecordsPy ps ctx ∧
    endLinesJS ps ctx st = specSequenceRecordsJS ps ctx := by
  rcases h with h | h <;>
    constructor <;>
      simp [endLinesPy, endLinesJS, writeRoutineEndCode, writeRoutineEndCodeJS, h, hs,
        specSequenceRecordsPy, specSequenceRecordsJS, routineEndChannels, write_ite,
        splitLines_newline, opsLines_append, opsLines, opsEnd, opsEnd_append,
        opsLines_map_write, opsEnd_map_write, opsLines_ite, opsEnd_ite,
        List.map_append, List.map_cons, List.map_nil, List.append_eq]

/-- Witness for C6 at a concrete parameter set. -/
theorem claim_C6_sequence_records_witness :
    endLinesPy ⟨"mouse", "on click", "valid click", "routine", true, "target", "name,", "1.0"⟩
        ⟨"t", "trials", "TrialHandler", "thisExp"⟩ ⟨"t"⟩ =
      specSequenceRecordsPy ⟨"mouse", "on click", "valid click", "routine", true, "target", "name,", "1.0"⟩
        ⟨"t", "trials", "TrialHandler", "thisExp"⟩ ∧
    endLinesJS ⟨"mouse", "on click", "valid click", "routine", true, "target", "name,", "1.0"⟩
        ⟨"t", "trials", "TrialHandler", "thisExp"⟩ ⟨"t"⟩ =
      specSequenceRecordsJS ⟨"mouse", "on click", "valid click", "routine", true, "target", "name,", "1.0"⟩
        ⟨"t", "trials", "TrialHandler", "thisExp"⟩ :=
  claim_C6_sequence_records _ _ _ (Or.inr (by decide)) (by decide)

/-- C9: whenever the per-frame phase emits at all, its fourth buffer
operation is the baseline-button-state capture: the status assignment
followed by the current-pressed-buttons query when `newClicksOnly` is set,
and by the all-released vector `[0, 0, 0]` otherwise — in both runtimes. -/
theorem claim_C9_baseline (ps : ParameterSet) (ctx : RoutineCtx) (st : CompState)
    (h : ps.saveMouseState = "on click" ∨ ps.saveMouseState = "every frame" ∨
      ps.forceEndRoutineOnPress ≠ "never") :
    ((writeFrameCode ps ctx st).1)[3]? =
      some (BuffOp.writeLines (statusStartedPy ps ++
        (if ps.newClicksOnly then baselinePressedPy ps else baselineZeroPy))) ∧
    ((writeFrameCodeJS ps ctx st).1)[3]? =
      some (BuffOp.writeLines (statusStartedJS ps ++
        (if ps.newClicksOnly then baselinePressedJS ps else baselineZeroJS))) := by
  have hne : ¬((ps.saveMouseState ≠ "every frame" ∧ ps.saveMouseState ≠ "on click") ∧
      ps.forceEndRoutineOnPress = "never") := by tauto
  constructor
  · simp only [writeFrameCode, writeStartTestCodeOps]
    rw [if_neg hne]
    rfl
  · simp only [writeFrameCodeJS, writeStartTestCodeJSOps]
    rw [if_neg hne]
    rfl

/-- Witness for C9 at a concrete parameter set with `newClicksOnly` set. -/
theorem claim_C9_baseline_witness :
    ((writeFrameCode ⟨"mouse", "on click", "never", "routine", true, "target", "name,", "1.0"⟩
        ⟨"t", "trials", "TrialHandler", "thisExp"⟩ ⟨""⟩).1)[3]? =
      some (BuffOp.writeLines
        (statusStartedPy ⟨"mouse", "on click", "never", "routine", true, "target", "name,", "1.0"⟩ ++
          (if (⟨"mouse", "on click", "never", "routine", true, "target", "name,", "1.0"⟩ :
              ParameterSet).newClicksOnly then
            baselinePressedPy ⟨"mouse", "on click", "never", "routine", true, "target", "name,", "1.0"⟩
          else baselineZeroPy))) ∧
    ((writeFrameCodeJS ⟨"mouse", "on click", "never", "routine", true, "target", "name,", "1.0"⟩
        ⟨"t", "trials", "TrialHandler", "thisExp"⟩ ⟨""⟩).1)[3]? =
      some (BuffOp.writeLines
        (statusStartedJS ⟨"mouse", "on click", "never", "routine", true, "target", "name,", "1.0"⟩ ++
          (if (⟨"mouse", "on click", "never", "routine", true, "target", "name,", "1.0"⟩ :
              ParameterSet).newClicksOnly then
            baselinePressedJS ⟨"mouse", "on click", "never", "routine", true, "target", "name,", "1.0"⟩
          else baselineZeroJS))) :=
  claim_C9_baseline _ _ _ (Or.inl (by decide))

/-- C10 amended: every phase emission is a pure function of the parameter
set, the context and the incoming component state.  The declare,
routine-start and routine-end emissions of both runtimes and the desktop
per-frame emission return the indentation cursor to its pre-call level; the
browser per-frame emission restores it exactly when it emits nothing or the
click-detection branch is taken if and only if `clickable` is non-empty —
otherwise it ends one level above (click detection with empty `clickable`)
or one level below (no click detection with non-empty `clickable`) its
pre-call level. -/
theorem claim_C10_amended (ps : ParameterSet) (ctx : RoutineCtx) (st : CompState) :
    opsEnd 0 (writeInitCode ps) = 0 ∧
    opsEnd 0 (writeInitCodeJS ps) = 0 ∧
    opsEnd 0 (writeRoutineStartCode ps) = 0 ∧
    opsEnd 0 (writeRoutineStartCodeJS ps) = 0 ∧
    opsEnd 0 (writeFrameCode ps ctx st).1 = 0 ∧
    opsEnd 0 (writeRoutineEndCode ps ctx st) = 0 ∧
    opsEnd 0 (writeRoutineEndCodeJS ps ctx st) = 0 ∧
    opsEnd 0 (writeFrameCodeJS ps ctx st).1 =
      (if (ps.saveMouseState ≠ "every frame" ∧ ps.saveMouseState ≠ "on click") ∧
          ps.forceEndRoutineOnPress = "never" then 0
       else if ps.saveMouseState = "on click" ∨ ps.forceEndRoutineOnPress = "any click" ∨
          ps.forceEndRoutineOnPress = "valid click" then
         (if ps.clickable = "" then 1 else 0)
       else (if ps.clickable = "" then 0 else -1)) := by
  refine ⟨?_, ?_, ?_, ?_, ?_, ?_, ?_, ?_⟩
  · simp [writeInitCode, opsEnd]
  · simp [writeInitCodeJS, opsEnd]
  · simp [writeRoutineStartCode, opsEnd]
  · simp [writeRoutineStartCodeJS, opsEnd]
  · by_cases he : ((ps.saveMouseState ≠ "every frame" ∧ ps.saveMouseState ≠ "on click") ∧
        ps.forceEndRoutineOnPress = "never")
    · simp [writeFrameCode, he, opsEnd]
    · simp only [writeFrameCode]
      rw [if_neg he]
      dsimp only
      simp only [writeStartTestCodeOps, writeStopTestCodeOps, writeClickableObjectsCode,
        List.append_assoc, List.cons_append, List.nil_append]
      split_ifs <;>
        simp only [opsEnd_append, opsEnd, List.cons_append, List.nil_append] <;> omega
  · by_cases he : ps.saveMouseState = "nothing"
    · simp [writeRoutineEndCode, he, opsEnd]
    · simp only [writeRoutineEndCode]
      rw [if_neg he]
      simp only [writeClickableObjectsCode, routineEndChannels, List.map_append,
        List.map_cons, List.map_nil, List.append_assoc, List.cons_append, List.nil_append]
      split_ifs <;>
        simp only [List.append_eq, opsEnd_append, opsEnd, opsEnd_map_write,
          opsEnd_map_write_ite, List.map_cons, List.map_nil, List.cons_append,
          List.nil_append, List.append_nil] <;>
        omega
  · by_cases he : ps.saveMouseState = "nothing"
    · simp [writeRoutineEndCodeJS, he, opsEnd]
    · simp only [writeRoutineEndCodeJS]
      rw [if_neg he]
      simp only [writeClickableObjectsCode, routineEndChannels, List.map_append,
        List.map_cons, List.map_nil, List.append_assoc, List.cons_append, List.nil_append]
      split_ifs <;>
        simp only [List.append_eq, opsEnd_append, opsEnd, opsEnd_map_write,
          opsEnd_map_write_ite, List.map_cons, List.map_nil, List.cons_append,
          List.nil_append, List.append_nil] <;>
        omega
  · by_cases he : ((ps.saveMouseState ≠ "every frame" ∧ ps.saveMouseState ≠ "on click") ∧
        ps.forceEndRoutineOnPress = "never")
    · simp [writeFrameCodeJS, he, opsEnd]
    · rw [if_neg he]
      simp only [writeFrameCodeJS]
      rw [if_neg he]
      dsimp only
      simp only [writeStartTestCodeJSOps, writeStopTestCodeJSOps, writeClickableObjectsCodeJS,
        List.append_assoc, List.cons_append, List.nil_append]
      split_ifs <;>
        simp only [opsEnd_append, opsEnd, List.cons_append, List.nil_append] <;> omega

end MouseComponent
